import Mathlib

/-
Verification of the two-step ML pipeline notebook
(src/pipeline/build_pipeline.ipynb).

The notebook is sequential glue code over an external ML platform SDK:
it resolves or provisions a compute target, looks up a dataset and a
datastore, constructs a two-step (data-prep, train) pipeline descriptor,
validates, submits, publishes it, and creates two schedules (a recurrence
schedule and a datastore-change schedule).

The notebook's own control flow (the try/except around the compute
lookup, the isinstance dispatch over dataset kinds, the literal
configuration values, the ordered sequence of SDK calls) is embedded
directly from the source.  The external platform's behaviour (compute
lookup/create, pipeline validation, schedule semantics) is not part of
the repository; those operations are modelled from the specification and
are marked as such in their doc comments.
-/

set_option autoImplicit false

namespace BuildPipeline

/-- Sizing bounds passed to `AmlCompute.provisioning_configuration`
(notebook cell 6): vm size, idle-scaledown timeout and min/max node
counts. -/
structure ProvisioningConfig where
  vm_size : String
  idle_seconds_before_scaledown : Nat
  min_nodes : Nat
  max_nodes : Nat
deriving DecidableEq, Repr

/-- A provisioned (or looked-up) compute target, carrying its name and
the sizing bounds it was created with. -/
structure AmlComputeT where
  name : String
  config : ProvisioningConfig
deriving DecidableEq, Repr

/-- The exception raised by the platform when a compute target cannot be
resolved by name (`azureml.core.compute_target.ComputeTargetException`). -/
structure ComputeTargetException where
deriving DecidableEq, Repr

/-- Recurrence frequency unit of `ScheduleRecurrence`. -/
inductive Frequency where
  | Minute
  | Hour
  | Day
  | Week
  | Month
deriving DecidableEq, Repr

/-- `ScheduleRecurrence(frequency, interval, hours, minutes)` as
constructed in notebook cell 23. -/
structure ScheduleRecurrenceT where
  frequency : Frequency
  interval : Nat
  hours : List Nat
  minutes : List Nat
deriving DecidableEq, Repr

/-- The shape of the dataset returned by `Dataset.get_by_name`: the
notebook dispatches on `isinstance(_, FileDataset)` and
`isinstance(_, TabularDataset)`; any other runtime type falls through
both branches. -/
inductive DatasetV where
  | file (n : String)
  | tabular (n : String)
  | other (n : String)
deriving DecidableEq, Repr

/-- `input_dataset.name`, used both in the named-input binding and in the
step arguments. -/
def DatasetV.name : DatasetV → String
  | .file n => n
  | .tabular n => n
  | .other n => n

/-- One element of the `inputs=` list of a step: a dataset bound as a
named input, either mounted (`as_named_input(..).as_mount()`) or not
(`as_named_input(..)`). -/
structure InputBinding where
  datasetName : String
  mounted : Bool
deriving DecidableEq, Repr

/-- `PipelineData(name=..., datastore=...)`: a named intermediate data
slot connecting two steps (notebook cell 10). -/
structure PipelineDataT where
  name : String
  datastore : String
deriving DecidableEq, Repr

/-- A `PythonScriptStep` descriptor: script, arguments, compute target,
dataset input bindings, and the `PipelineData` slots read and written. -/
structure StepDesc where
  script_name : String
  name : String
  arguments : List String
  compute_target : String
  datasetInputs : Option (List InputBinding)
  inputsData : List String
  outputsData : List String
  source_directory : String
deriving DecidableEq, Repr

/-- The error raised when pipeline validation fails. -/
inductive ConfigurationError where
  | unproducedInput
  | computeTargetUnset
  | missingDataset
deriving DecidableEq, Repr

-- ### Literal configuration values from the notebook source

/-- Notebook cell 6: `aml_compute_target = "cpu-cluster"`. -/
def aml_compute_target : String := "cpu-cluster"

/-- Notebook cell 6: the provisioning configuration
`vm_size="STANDARD_D2_V2", idle_seconds_before_scaledown=1200,
min_nodes=0, max_nodes=4`. -/
def provisioning_config : ProvisioningConfig :=
  { vm_size := "STANDARD_D2_V2"
    idle_seconds_before_scaledown := 1200
    min_nodes := 0
    max_nodes := 4 }

/-- Notebook cell 10: `DATASET_NAME = ''`. -/
def DATASET_NAME : String := ""

/-- Notebook cell 10: `DATASTORE_NAME = ''`. -/
def DATASTORE_NAME : String := ""

/-- Notebook cell 23:
`ScheduleRecurrence(frequency="Day", interval=2, hours=[22], minutes=[30])`. -/
def recurrence : ScheduleRecurrenceT :=
  { frequency := .Day, interval := 2, hours := [22], minutes := [30] }

/-- Notebook cell 10:
`training_data = PipelineData(name='training_data', datastore=datastore)`. -/
def training_data (datastore : String) : PipelineDataT :=
  { name := "training_data", datastore := datastore }

/-- Notebook cell 12: the `isinstance` dispatch.  `my_inputs` starts as
`None`; a `FileDataset` is bound as a named input mounted, a
`TabularDataset` as a named input without mounting, and anything else
leaves `my_inputs = None`. -/
def my_inputs (input_dataset : DatasetV) : Option (List InputBinding) :=
  match input_dataset with
  | .file n => some [{ datasetName := n, mounted := true }]
  | .tabular n => some [{ datasetName := n, mounted := false }]
  | .other _ => none

/-- Notebook cell 12: the `data_prep_step` `PythonScriptStep`.  It writes
the `training_data` slot as its only `PipelineData` output. -/
def data_prep_step (aml_compute : AmlComputeT) (input_dataset : DatasetV)
    (datastore : String) : StepDesc :=
  { script_name := "data_prep.py"
    name := "data_prep_step"
    arguments := ["--input_dataset", input_dataset.name,
                  "--output_folder", (training_data datastore).name]
    compute_target := aml_compute.name
    datasetInputs := my_inputs input_dataset
    inputsData := []
    outputsData := [(training_data datastore).name]
    source_directory := "scripts/01-data-prep" }

/-- A train step reading an arbitrary input slot; the notebook's
`train_step` is this at the slot named by `training_data`. -/
def trainStepWithInput (aml_compute : AmlComputeT) (inputSlot : String) :
    StepDesc :=
  { script_name := "train.py"
    name := "training_step"
    arguments := ["--training_data", inputSlot, "--param1", "param1"]
    compute_target := aml_compute.name
    datasetInputs := none
    inputsData := [inputSlot]
    outputsData := []
    source_directory := "scripts/02-train" }

/-- Notebook cell 15: the `train_step` `PythonScriptStep`.  It reads the
`training_data` slot as its only input and declares no outputs. -/
def train_step (aml_compute : AmlComputeT) (datastore : String) : StepDesc :=
  { script_name := "train.py"
    name := "training_step"
    arguments := ["--training_data", (training_data datastore).name,
                  "--param1", "param1"]
    compute_target := aml_compute.name
    datasetInputs := none
    inputsData := [(training_data datastore).name]
    outputsData := []
    source_directory := "scripts/02-train" }

-- ### Spec-modelled platform operations

/-- Modelled from the spec (§4.1): an edge exists from step A to step B
exactly when B declares an input slot that A declares as an output
slot. -/
def hasEdge (a b : StepDesc) : Bool :=
  a.outputsData.any (fun s => b.inputsData.contains s)

/-- Modelled from the spec (§4.1): `pipeline.validate()` is not in the
repository (it is an SDK call); validation fails with a
`ConfigurationError` when a declared input slot has no producing step,
when a compute target name is unset, or when a required named dataset
does not exist, and succeeds otherwise. -/
def validate (steps : List StepDesc) (requiredDatasets : List String)
    (datasetExists : String → Bool) : Except ConfigurationError Unit :=
  if steps.any (fun b =>
      b.inputsData.any (fun s =>
        !(steps.any (fun a => a.outputsData.contains s)))) then
    .error .unproducedInput
  else if steps.any (fun b => b.compute_target == "") then
    .error .computeTargetUnset
  else if requiredDatasets.any (fun n => !(datasetExists n)) then
    .error .missingDataset
  else
    .ok ()

/-- Modelled from the spec (§4.2): the platform resolves a compute
target by name, `AmlCompute(ws, name)`, raising
`ComputeTargetException` when absent.  The workspace's compute targets
are a map from name to target. -/
def amlComputeLookup (computes : String → Option AmlComputeT)
    (name : String) : Except ComputeTargetException AmlComputeT :=
  match computes name with
  | some t => .ok t
  | none => .error {}

/-- The notebook's lookup-or-create logic (cell 6), as a transformer of
the workspace's compute map: try to resolve the target by name; on
`ComputeTargetException` create one from the provisioning configuration
(`ComputeTarget.create`, modelled from the spec §4.2 as registering the
new target under its name).  Returns the target used, the updated map,
and whether a provisioning call was made. -/
def resolveOrCreate (computes : String → Option AmlComputeT)
    (name : String) (cfg : ProvisioningConfig) :
    AmlComputeT × (String → Option AmlComputeT) × Bool :=
  match amlComputeLookup computes name with
  | .ok t => (t, computes, false)
  | .error _ =>
      let created : AmlComputeT := { name := name, config := cfg }
      (created, fun n => if n = name then some created else computes n, true)

/-- Modelled from the spec (§4.3): a recurrence rule with frequency Day
fires `interval` days apart (days counted from the schedule's start) at
each listed hour and minute. -/
def firesAt (r : ScheduleRecurrenceT) (daysSinceStart hour minute : Nat) :
    Prop :=
  r.frequency = .Day ∧ daysSinceStart % r.interval = 0 ∧
    hour ∈ r.hours ∧ minute ∈ r.minutes

-- ### The notebook's sequence of SDK calls

/-- Which kind of trigger a `Schedule.create` call passed. -/
inductive TriggerKind where
  | recurrenceTrig (r : ScheduleRecurrenceT)
  | datastoreTrig (datastore : String)
deriving DecidableEq, Repr

/-- One call issued against the external platform, in the order the
notebook makes them. -/
inductive SdkCall where
  | computeLookup (name : String)
  | computeCreate (name : String) (cfg : ProvisioningConfig)
  | waitForCompletion (timeout_in_minutes : Nat)
  | datasetGetByName (name : String)
  | datastoreGet (name : String)
  | pipelineValidate
  | pipelineSubmit (experiment_name : String) (regenerate_outputs : Bool)
  | pipelinePublish
  | scheduleCreate (name : String) (pipeline_id : String)
      (trigger : TriggerKind)
deriving DecidableEq, Repr

/-- The keyword arguments the notebook passes to `Schedule.create`: both
trigger kinds are optional fields of the call, and each call populates
exactly one of them. -/
structure ScheduleDesc where
  name : String
  pipeline_id : String
  experiment_name : String
  recurrence : Option ScheduleRecurrenceT
  datastore : Option String
  path_on_datastore : Option String
  polling_interval : Option Nat
  wait_for_provisioning : Bool
  description : String
deriving DecidableEq, Repr

/-- Notebook cell 23: the recurrence-triggered `Schedule.create` call.
No storage-trigger field (`datastore`, `path_on_datastore`,
`polling_interval`) is passed. -/
def recurrenceSchedule (pipeline_id : String) : ScheduleDesc :=
  { name := "My_Schedule"
    pipeline_id := pipeline_id
    experiment_name := "Schedule_Run"
    recurrence := some recurrence
    datastore := none
    path_on_datastore := none
    polling_interval := none
    wait_for_provisioning := true
    description := "Schedule Run" }

/-- Notebook cell 25: the datastore-change-triggered `Schedule.create`
call.  No recurrence field is passed (and `path_on_datastore` /
`polling_interval` are left at their commented-out defaults). -/
def datastoreSchedule (pipeline_id datastore : String) : ScheduleDesc :=
  { name := "My_Schedule"
    pipeline_id := pipeline_id
    experiment_name := "Schedule_Run"
    recurrence := none
    datastore := some datastore
    path_on_datastore := none
    polling_interval := none
    wait_for_provisioning := true
    description := "Schedule Run" }

/-- Failures that can escape the notebook to the operator.  Note there
is no constructor for `ComputeTargetException`: that exception is caught
by the notebook's `try/except`. -/
inductive Err where
  | provisioningTimeout
  | datasetNotFound
  | datastoreNotFound
  | configurationError (e : ConfigurationError)
  | submitFailed
  | publishFailed
  | scheduleFailed
deriving DecidableEq, Repr

/-- The state and responses of the external platform, modelled from the
spec: the workspace's compute targets, datasets and datastores by name,
whether compute provisioning completes before the timeout, whether
submit/publish/schedule calls succeed, and the id assigned to the
published pipeline. -/
structure Platform where
  computes : String → Option AmlComputeT
  provisionCompletes : Bool
  datasets : String → Option DatasetV
  datastores : String → Option String
  submitOk : Bool
  publishOk : Bool
  publishedId : String
  scheduleOk : Bool

/-- The values the notebook holds after a successful end-to-end run. -/
structure NotebookResult where
  aml_compute : AmlComputeT
  published_id : String
  schedule1 : ScheduleDesc
  schedule2 : ScheduleDesc
deriving DecidableEq, Repr

/-- Prepend already-issued calls to the trace of a continuation. -/
def withTrace (pre : List SdkCall)
    (k : List SdkCall × Except Err NotebookResult) :
    List SdkCall × Except Err NotebookResult :=
  (pre ++ k.1, k.2)

/-- Cells 14-25 of the notebook, after the dataset and datastore have
been resolved: build the two steps and the pipeline, then
`validate`, `submit(experiment_name="pipeline-test",
regenerate_outputs=True)`, `publish`, and the two `Schedule.create`
calls (recurrence first, then datastore trigger), each failure
propagating unhandled. -/
def runFromSteps (p : Platform) (aml_compute : AmlComputeT)
    (input_dataset : DatasetV) (datastore : String) :
    List SdkCall × Except Err NotebookResult :=
  let steps := [data_prep_step aml_compute input_dataset datastore,
                train_step aml_compute datastore]
  match validate steps [DATASET_NAME] (fun n => (p.datasets n).isSome) with
  | .error e => ([.pipelineValidate], .error (.configurationError e))
  | .ok _ =>
    if p.submitOk then
      if p.publishOk then
        if p.scheduleOk then
          ([.pipelineValidate, .pipelineSubmit "pipeline-test" true,
            .pipelinePublish,
            .scheduleCreate "My_Schedule" p.publishedId
              (.recurrenceTrig recurrence),
            .scheduleCreate "My_Schedule" p.publishedId
              (.datastoreTrig datastore)],
           .ok { aml_compute := aml_compute
                 published_id := p.publishedId
                 schedule1 := recurrenceSchedule p.publishedId
                 schedule2 := datastoreSchedule p.publishedId datastore })
        else
          ([.pipelineValidate, .pipelineSubmit "pipeline-test" true,
            .pipelinePublish,
            .scheduleCreate "My_Schedule" p.publishedId
              (.recurrenceTrig recurrence)],
           .error .scheduleFailed)
      else
        ([.pipelineValidate, .pipelineSubmit "pipeline-test" true,
          .pipelinePublish], .error .publishFailed)
    else
      ([.pipelineValidate, .pipelineSubmit "pipeline-test" true],
       .error .submitFailed)

/-- Cells 10-25: `Dataset.get_by_name(ws, DATASET_NAME)` and
`Datastore(ws, DATASTORE_NAME)`, whose failures propagate unhandled,
then the rest of the notebook. -/
def runFromCompute (p : Platform) (aml_compute : AmlComputeT) :
    List SdkCall × Except Err NotebookResult :=
  match p.datasets DATASET_NAME with
  | none => ([.datasetGetByName DATASET_NAME], .error .datasetNotFound)
  | some input_dataset =>
    match p.datastores DATASTORE_NAME with
    | none => ([.datasetGetByName DATASET_NAME,
                .datastoreGet DATASTORE_NAME], .error .datastoreNotFound)
    | some datastore =>
        withTrace [.datasetGetByName DATASET_NAME,
                   .datastoreGet DATASTORE_NAME]
          (runFromSteps p aml_compute input_dataset datastore)

/-- The notebook end to end (cells 6-25).  The compute lookup is wrapped
in `try/except ComputeTargetException`: on lookup failure a new target
is provisioned from `provisioning_config` and
`wait_for_completion(timeout_in_minutes=20)` is blocked on; a
provisioning timeout propagates.  Every later call's failure also
propagates unhandled. -/
def runNotebook (p : Platform) : List SdkCall × Except Err NotebookResult :=
  match amlComputeLookup p.computes aml_compute_target with
  | .ok t =>
      withTrace [.computeLookup aml_compute_target] (runFromCompute p t)
  | .error _ =>
      let pre := [SdkCall.computeLookup aml_compute_target,
                  .computeCreate aml_compute_target provisioning_config,
                  .waitForCompletion 20]
      if p.provisionCompletes then
        withTrace pre
          (runFromCompute p
            { name := aml_compute_target, config := provisioning_config })
      else
        (pre, .error .provisioningTimeout)

/-- The `Schedule.create` calls of a trace, in order. -/
def scheduleCalls (tr : List SdkCall) : List SdkCall :=
  tr.filter (fun c => match c with
    | .scheduleCreate _ _ _ => true
    | _ => false)

/-- How many schedules a trace binds to a given published pipeline id. -/
def schedulesBoundTo (tr : List SdkCall) (pid : String) : Nat :=
  (tr.filter (fun c => match c with
    | .scheduleCreate _ p _ => p == pid
    | _ => false)).length

/-- A platform on which every call of the notebook succeeds: the
compute target already exists, the empty-named dataset resolves to a
tabular dataset and the empty-named datastore resolves. -/
def happyPlatform : Platform :=
  { computes := fun n =>
      if n = "cpu-cluster" then
        some { name := "cpu-cluster", config := provisioning_config }
      else none
    provisionCompletes := true
    datasets := fun n =>
      if n = "" then some (.tabular "creditcard") else none
    datastores := fun n =>
      if n = "" then some "workspaceblobstore" else none
    submitOk := true
    publishOk := true
    publishedId := "pipeline-id-0"
    scheduleOk := true }

/-- Same platform but with no compute target registered, so the lookup
raises and the notebook provisions one. -/
def provisionPlatform : Platform :=
  { happyPlatform with computes := fun _ => none }

/-- The compute target the happy platform stores under `"cpu-cluster"`. -/
def cpuCluster : AmlComputeT :=
  { name := "cpu-cluster", config := provisioning_config }

/-- No compute target and provisioning does not complete in time. -/
def timeoutPlatform : Platform :=
  { provisionPlatform with provisionCompletes := false }

/-- No dataset resolves, so `Dataset.get_by_name` fails. -/
def noDatasetPlatform : Platform :=
  { happyPlatform with datasets := fun _ => none }

/-- No datastore resolves, so `Datastore(ws, ...)` fails. -/
def noDatastorePlatform : Platform :=
  { happyPlatform with datastores := fun _ => none }

/-- Submission fails. -/
def noSubmitPlatform : Platform :=
  { happyPlatform with submitOk := false }

/-- Publishing fails. -/
def noPublishPlatform : Platform :=
  { happyPlatform with publishOk := false }

/-- Schedule creation fails. -/
def noSchedulePlatform : Platform :=
  { happyPlatform with scheduleOk := false }

/-- Claim C1: resolving a compute target by name is attempted first and
succeeds without provisioning when the target exists; only on resolution
failure is a new target provisioned; and resolve-or-create run twice
with the same name yields the same target with no second provisioning
call. -/
theorem c1_resolve_or_create_idempotent
    (computes : String → Option AmlComputeT) (name : String)
    (cfg : ProvisioningConfig) :
    (∀ t, computes name = some t →
      resolveOrCreate computes name cfg = (t, computes, false)) ∧
    (computes name = none →
      (resolveOrCreate computes name cfg).2.2 = true ∧
      (resolveOrCreate computes name cfg).1 =
        { name := name, config := cfg }) ∧
    (resolveOrCreate (resolveOrCreate computes name cfg).2.1 name cfg =
      ((resolveOrCreate computes name cfg).1,
       (resolveOrCreate computes name cfg).2.1, false)) := by
  cases h : computes name <;>
    simp [resolveOrCreate, amlComputeLookup, h]

/-- Witness for C1 at concrete inputs: an existing `"cpu-cluster"` target
is returned unchanged without provisioning, and on an empty workspace a
target is provisioned. -/
theorem c1_resolve_or_create_idempotent_witness :
    resolveOrCreate happyPlatform.computes "cpu-cluster" provisioning_config
      = (cpuCluster, happyPlatform.computes, false) ∧
    ((resolveOrCreate (fun _ => none) "cpu-cluster"
        provisioning_config).2.2 = true ∧
     (resolveOrCreate (fun _ => none) "cpu-cluster"
        provisioning_config).1 = cpuCluster) :=
  ⟨(c1_resolve_or_create_idempotent happyPlatform.computes "cpu-cluster"
      provisioning_config).1 cpuCluster rfl,
   (c1_resolve_or_create_idempotent (fun _ => none) "cpu-cluster"
      provisioning_config).2.1 rfl⟩

/-- Claim C4: applying the provisioning configuration
`{vm_size: STANDARD_D2_V2, min_nodes: 0, max_nodes: 4,
idle_seconds: 1200}` to a non-existent compute target name provisions a
created target carrying exactly those bounds. -/
theorem c4_created_target_carries_bounds
    (computes : String → Option AmlComputeT)
    (h : computes aml_compute_target = none) :
    (resolveOrCreate computes aml_compute_target provisioning_config).2.2
      = true ∧
    (resolveOrCreate computes aml_compute_target
        provisioning_config).1.config.vm_size = "STANDARD_D2_V2" ∧
    (resolveOrCreate computes aml_compute_target
        provisioning_config).1.config.min_nodes = 0 ∧
    (resolveOrCreate computes aml_compute_target
        provisioning_config).1.config.max_nodes = 4 ∧
    (resolveOrCreate computes aml_compute_target
        provisioning_config).1.config.idle_seconds_before_scaledown
      = 1200 := by
  simp [resolveOrCreate, amlComputeLookup, h, provisioning_config]

/-- Witness for C4: the empty workspace has no `"cpu-cluster"` target. -/
theorem c4_created_target_carries_bounds_witness :
    (resolveOrCreate (fun _ => none) aml_compute_target
        provisioning_config).2.2 = true ∧
    (resolveOrCreate (fun _ => none) aml_compute_target
        provisioning_config).1.config.vm_size = "STANDARD_D2_V2" ∧
    (resolveOrCreate (fun _ => none) aml_compute_target
        provisioning_config).1.config.min_nodes = 0 ∧
    (resolveOrCreate (fun _ => none) aml_compute_target
        provisioning_config).1.config.max_nodes = 4 ∧
    (resolveOrCreate (fun _ => none) aml_compute_target
        provisioning_config).1.config.idle_seconds_before_scaledown
      = 1200 :=
  c4_created_target_carries_bounds (fun _ => none) rfl

/-- Claim C5: the recurrence constructed with
`{frequency: Day, interval: 2, hours: [22], minutes: [30]}` fires
exactly every other day at 22:30. -/
theorem c5_recurrence_every_other_day (d hour minute : Nat) :
    firesAt recurrence d hour minute ↔
      (d % 2 = 0 ∧ hour = 22 ∧ minute = 30) := by
  simp [firesAt, recurrence]

/-- Claim C8: the dataset-binding dispatch is total over the dataset
shapes: a `FileDataset` is bound as a named input mounted, a
`TabularDataset` as a named input without mounting, and any other
dataset leaves the step's `inputs` at `None`; the data-prep step is
constructed in every case. -/
theorem c8_dataset_dispatch_total (aml : AmlComputeT)
    (datastore n : String) :
    my_inputs (.file n) = some [{ datasetName := n, mounted := true }] ∧
    my_inputs (.tabular n)
      = some [{ datasetName := n, mounted := false }] ∧
    my_inputs (.other n) = none ∧
    (∀ d : DatasetV,
      (data_prep_step aml d datastore).datasetInputs = my_inputs d) ∧
    (data_prep_step aml (.other n) datastore).datasetInputs = none := by
  refine ⟨rfl, rfl, rfl, ?_, rfl⟩
  intro d
  rfl

/-- Counterexample to C6 as stated: after the notebook runs end to end
on a platform where every call succeeds, the number of schedules bound
to the published pipeline id is 2, not exactly one. -/
theorem c6_counterexample_two_schedules_bound :
    ¬ schedulesBoundTo (runNotebook happyPlatform).1
        happyPlatform.publishedId = 1 := by
  decide

/-- Claim C6 as amended: the two schedule trigger kinds are mutually
exclusive per schedule value — the recurrence `Schedule.create` call
populates no storage-trigger field and the datastore `Schedule.create`
call populates no recurrence field — but the notebook as shipped binds
both variants to the published pipeline in sequence (two schedules,
not one). -/
theorem c6_amended_variant_exclusive :
    (∀ pid, (recurrenceSchedule pid).datastore = none ∧
      (recurrenceSchedule pid).path_on_datastore = none ∧
      (recurrenceSchedule pid).polling_interval = none ∧
      (recurrenceSchedule pid).recurrence = some recurrence) ∧
    (∀ pid ds, (datastoreSchedule pid ds).recurrence = none ∧
      (datastoreSchedule pid ds).datastore = some ds) ∧
    schedulesBoundTo (runNotebook happyPlatform).1
      happyPlatform.publishedId = 2 := by
  refine ⟨fun pid => ⟨rfl, rfl, rfl, rfl⟩,
          fun pid ds => ⟨rfl, rfl⟩, by decide⟩

/-- Claim C2: the data-prep → train edge exists exactly because the
train step consumes the same `training_data` slot the data-prep step
produces; the notebook's train step is the generic one at slot
`training_data`; and with any other input slot name, validation fails
(the slot has no producing step). -/
theorem c2_edge_training_data (aml : AmlComputeT) (d : DatasetV)
    (datastore : String) :
    hasEdge (data_prep_step aml d datastore) (train_step aml datastore)
      = true ∧
    (∀ s, (s ∈ (data_prep_step aml d datastore).outputsData ∧
           s ∈ (train_step aml datastore).inputsData) ↔
          s = "training_data") ∧
    trainStepWithInput aml "training_data" = train_step aml datastore ∧
    (∀ (ex : String → Bool) (slot : String), slot ≠ "training_data" →
      validate [data_prep_step aml d datastore,
                trainStepWithInput aml slot] [DATASET_NAME] ex
        = .error .unproducedInput) := by
  refine ⟨by simp [hasEdge, data_prep_step, train_step, training_data],
          ?_, rfl, ?_⟩
  · intro s
    simp [data_prep_step, train_step, training_data]
  · intro ex slot h
    simp [validate, data_prep_step, trainStepWithInput, training_data,
      List.any, List.contains, h, Ne.symm h]

/-- Witness for C2 at a concrete mismatched slot name. -/
theorem c2_edge_training_data_witness :
    validate [data_prep_step cpuCluster (.tabular "creditcard")
                "workspaceblobstore",
              trainStepWithInput cpuCluster "other_slot"] [DATASET_NAME]
        (fun _ => true) = .error .unproducedInput ∧
    ("training_data" ∈ (data_prep_step cpuCluster (.tabular "creditcard")
        "workspaceblobstore").outputsData ∧
     "training_data" ∈ (train_step cpuCluster
        "workspaceblobstore").inputsData) :=
  ⟨(c2_edge_training_data cpuCluster (.tabular "creditcard")
      "workspaceblobstore").2.2.2 (fun _ => true) "other_slot" (by decide),
   ((c2_edge_training_data cpuCluster (.tabular "creditcard")
      "workspaceblobstore").2.1 "training_data").2 rfl⟩

/-- Claim C3: validation fails with a `ConfigurationError` exactly when
a declared input slot has no producing step, a compute target name is
unset, or a required named dataset does not exist; otherwise it
succeeds. -/
theorem c3_validate_error_iff (steps : List StepDesc) (req : List String)
    (ex : String → Bool) :
    ((∃ e, validate steps req ex = .error e) ↔
      ((∃ b ∈ steps, ∃ s ∈ b.inputsData, ∀ a ∈ steps, s ∉ a.outputsData) ∨
       (∃ b ∈ steps, b.compute_target = "") ∨
       (∃ n ∈ req, ex n = false))) ∧
    ((validate steps req ex = .ok ()) ↔
      ¬ ((∃ b ∈ steps, ∃ s ∈ b.inputsData, ∀ a ∈ steps, s ∉ a.outputsData) ∨
         (∃ b ∈ steps, b.compute_target = "") ∨
         (∃ n ∈ req, ex n = false))) := by
  unfold validate
  split_ifs with h1 h2 h3 <;>
    simp_all [List.any_eq_true, List.any_eq_false, List.contains,
      List.elem_eq_mem]
  all_goals try assumption

/-- Witness for C3: the notebook's own two-step pipeline (with the
dataset present) validates successfully, and a pipeline requiring a
missing dataset fails. -/
theorem c3_validate_error_iff_witness :
    (validate [data_prep_step cpuCluster (.tabular "creditcard")
                 "workspaceblobstore",
               train_step cpuCluster "workspaceblobstore"] [DATASET_NAME]
        (fun _ => true) = .ok ()) ∧
    (∃ e, validate [data_prep_step cpuCluster (.tabular "creditcard")
                      "workspaceblobstore",
                    train_step cpuCluster "workspaceblobstore"]
        [DATASET_NAME] (fun _ => false) = .error e) :=
  ⟨(c3_validate_error_iff [data_prep_step cpuCluster (.tabular "creditcard")
        "workspaceblobstore",
      train_step cpuCluster "workspaceblobstore"] [DATASET_NAME]
      (fun _ => true)).2.mpr (by decide),
   (c3_validate_error_iff [data_prep_step cpuCluster (.tabular "creditcard")
        "workspaceblobstore",
      train_step cpuCluster "workspaceblobstore"] [DATASET_NAME]
      (fun _ => false)).1.mpr (by decide)⟩

/-- Claim C7: compute-target lookup failure is the only handled error
condition — the `ComputeTargetException` is caught and the notebook
proceeds to provision (and the run continues identically to a
successful lookup) — while a provisioning timeout, a failed dataset or
datastore lookup, a validation error, and submit/publish/schedule
failures each propagate unhandled to the caller. -/
theorem c7_only_compute_lookup_handled :
    (∀ (p : Platform) t,
      amlComputeLookup p.computes aml_compute_target = .ok t →
      (runNotebook p).2 = (runFromCompute p t).2) ∧
    (∀ (p : Platform) e,
      amlComputeLookup p.computes aml_compute_target = .error e →
      p.provisionCompletes = true →
      (runNotebook p).2 = (runFromCompute p
        { name := aml_compute_target, config := provisioning_config }).2) ∧
    (∀ (p : Platform) e,
      amlComputeLookup p.computes aml_compute_target = .error e →
      p.provisionCompletes = false →
      (runNotebook p).2 = Except.error Err.provisioningTimeout) ∧
    (∀ (p : Platform) aml, p.datasets DATASET_NAME = none →
      (runFromCompute p aml).2 = Except.error Err.datasetNotFound) ∧
    (∀ (p : Platform) aml d, p.datasets DATASET_NAME = some d →
      p.datastores DATASTORE_NAME = none →
      (runFromCompute p aml).2 = Except.error Err.datastoreNotFound) ∧
    (∀ (p : Platform) aml d ds e,
      validate [data_prep_step aml d ds, train_step aml ds] [DATASET_NAME]
        (fun n => (p.datasets n).isSome) = .error e →
      (runFromSteps p aml d ds).2
        = Except.error (Err.configurationError e)) ∧
    (∀ (p : Platform) aml d ds,
      validate [data_prep_step aml d ds, train_step aml ds] [DATASET_NAME]
        (fun n => (p.datasets n).isSome) = .ok () →
      p.submitOk = false →
      (runFromSteps p aml d ds).2 = Except.error Err.submitFailed) ∧
    (∀ (p : Platform) aml d ds,
      validate [data_prep_step aml d ds, train_step aml ds] [DATASET_NAME]
        (fun n => (p.datasets n).isSome) = .ok () →
      p.submitOk = true → p.publishOk = false →
      (runFromSteps p aml d ds).2 = Except.error Err.publishFailed) ∧
    (∀ (p : Platform) aml d ds,
      validate [data_prep_step aml d ds, train_step aml ds] [DATASET_NAME]
        (fun n => (p.datasets n).isSome) = .ok () →
      p.submitOk = true → p.publishOk = true → p.scheduleOk = false →
      (runFromSteps p aml d ds).2 = Except.error Err.scheduleFailed) := by
  refine ⟨?_, ?_, ?_, ?_, ?_, ?_, ?_, ?_, ?_⟩
  · intro p t h
    simp [runNotebook, h, withTrace]
  · intro p e h hc
    simp [runNotebook, h, hc, withTrace]
  · intro p e h hc
    simp [runNotebook, h, hc, withTrace]
  · intro p aml h
    simp [runFromCompute, h]
  · intro p aml d h1 h2
    simp [runFromCompute, h1, h2]
  · intro p aml d ds e h
    simp [runFromSteps, h]
  · intro p aml d ds hv hs
    simp [runFromSteps, hv, hs, withTrace]
  · intro p aml d ds hv hs hp
    simp [runFromSteps, hv, hs, hp, withTrace]
  · intro p aml d ds hv hs hp hsc
    simp [runFromSteps, hv, hs, hp, hsc, withTrace]

/-- Witness for C7: each conjunct instantiated on a concrete platform
exhibiting exactly that failure (or, for the first two, a successful
lookup and a caught lookup failure). -/
theorem c7_only_compute_lookup_handled_witness :
    (runNotebook happyPlatform).2
      = (runFromCompute happyPlatform cpuCluster).2 ∧
    (runNotebook provisionPlatform).2 = (runFromCompute provisionPlatform
      { name := aml_compute_target, config := provisioning_config }).2 ∧
    (runNotebook timeoutPlatform).2
      = Except.error Err.provisioningTimeout ∧
    (runFromCompute noDatasetPlatform cpuCluster).2
      = Except.error Err.datasetNotFound ∧
    (runFromCompute noDatastorePlatform cpuCluster).2
      = Except.error Err.datastoreNotFound ∧
    (runFromSteps noDatasetPlatform cpuCluster (.tabular "creditcard")
        "workspaceblobstore").2
      = Except.error (Err.configurationError .missingDataset) ∧
    (runFromSteps noSubmitPlatform cpuCluster (.tabular "creditcard")
        "workspaceblobstore").2 = Except.error Err.submitFailed ∧
    (runFromSteps noPublishPlatform cpuCluster (.tabular "creditcard")
        "workspaceblobstore").2 = Except.error Err.publishFailed ∧
    (runFromSteps noSchedulePlatform cpuCluster (.tabular "creditcard")
        "workspaceblobstore").2 = Except.error Err.scheduleFailed :=
  ⟨c7_only_compute_lookup_handled.1 happyPlatform cpuCluster rfl,
   c7_only_compute_lookup_handled.2.1 provisionPlatform ⟨⟩ rfl rfl,
   c7_only_compute_lookup_handled.2.2.1 timeoutPlatform ⟨⟩ rfl rfl,
   c7_only_compute_lookup_handled.2.2.2.1 noDatasetPlatform cpuCluster rfl,
   c7_only_compute_lookup_handled.2.2.2.2.1 noDatastorePlatform cpuCluster
     (.tabular "creditcard") rfl rfl,
   c7_only_compute_lookup_handled.2.2.2.2.2.1 noDatasetPlatform cpuCluster
     (.tabular "creditcard") "workspaceblobstore" .missingDataset rfl,
   c7_only_compute_lookup_handled.2.2.2.2.2.2.1 noSubmitPlatform cpuCluster
     (.tabular "creditcard") "workspaceblobstore" rfl rfl,
   c7_only_compute_lookup_handled.2.2.2.2.2.2.2.1 noPublishPlatform
     cpuCluster (.tabular "creditcard") "workspaceblobstore" rfl rfl rfl,
   c7_only_compute_lookup_handled.2.2.2.2.2.2.2.2 noSchedulePlatform
     cpuCluster (.tabular "creditcard") "workspaceblobstore" rfl
     rfl rfl rfl⟩

theorem scheduleCalls_append (a b : List SdkCall) :
    scheduleCalls (a ++ b) = scheduleCalls a ++ scheduleCalls b := by
  simp [scheduleCalls]

theorem runFromSteps_ok_scheduleCalls (p : Platform) (aml : AmlComputeT)
    (d : DatasetV) (ds : String) (r : NotebookResult)
    (h : (runFromSteps p aml d ds).2 = .ok r) :
    scheduleCalls (runFromSteps p aml d ds).1 =
      [.scheduleCreate "My_Schedule" p.publishedId
         (.recurrenceTrig recurrence),
       .scheduleCreate "My_Schedule" p.publishedId
         (.datastoreTrig ds)] := by
  rcases hv : validate [data_prep_step aml d ds, train_step aml ds]
      [DATASET_NAME] (fun n => (p.datasets n).isSome) with e | u
  · simp [runFromSteps, hv] at h
  · rcases hs : p.submitOk
    · simp [runFromSteps, hv, hs] at h
    · rcases hp : p.publishOk
      · simp [runFromSteps, hv, hs, hp] at h
      · rcases hsc : p.scheduleOk
        · simp [runFromSteps, hv, hs, hp, hsc] at h
        · simp [runFromSteps, scheduleCalls, hv, hs, hp, hsc]

theorem runFromCompute_ok_scheduleCalls (p : Platform) (aml : AmlComputeT)
    (r : NotebookResult)
    (h : (runFromCompute p aml).2 = .ok r) :
    ∃ ds, p.datastores DATASTORE_NAME = some ds ∧
      scheduleCalls (runFromCompute p aml).1 =
        [.scheduleCreate "My_Schedule" p.publishedId
           (.recurrenceTrig recurrence),
         .scheduleCreate "My_Schedule" p.publishedId
           (.datastoreTrig ds)] := by
  rcases hd : p.datasets DATASET_NAME with _ | d
  · simp [runFromCompute, hd] at h
  · rcases hds : p.datastores DATASTORE_NAME with _ | ds
    · simp [runFromCompute, hd, hds] at h
    · have h' : (runFromSteps p aml d ds).2 = .ok r := by
        simpa [runFromCompute, hd, hds, withTrace] using h
      refine ⟨ds, rfl, ?_⟩
      have htr : (runFromCompute p aml).1 =
          [SdkCall.datasetGetByName DATASET_NAME,
           SdkCall.datastoreGet DATASTORE_NAME]
            ++ (runFromSteps p aml d ds).1 := by
        simp [runFromCompute, hd, hds, withTrace]
      rw [htr, scheduleCalls_append,
        runFromSteps_ok_scheduleCalls p aml d ds r h']
      simp [scheduleCalls]

/-- Claim C9: every successful end-to-end execution of the notebook
issues exactly two `Schedule.create` calls, both under the name
`My_Schedule` and against the same published pipeline id — first the
recurrence-triggered one, then the datastore-change-triggered one. -/
theorem c9_two_schedule_creates (p : Platform) (r : NotebookResult)
    (h : (runNotebook p).2 = .ok r) :
    ∃ ds, p.datastores DATASTORE_NAME = some ds ∧
      scheduleCalls (runNotebook p).1 =
        [.scheduleCreate "My_Schedule" p.publishedId
           (.recurrenceTrig recurrence),
         .scheduleCreate "My_Schedule" p.publishedId
           (.datastoreTrig ds)] := by
  rcases hl : amlComputeLookup p.computes aml_compute_target with e | t
  · rcases hc : p.provisionCompletes
    · simp [runNotebook, hl, hc] at h
    · have h' : (runFromCompute p
          { name := aml_compute_target, config := provisioning_config }).2
            = .ok r := by
        simpa [runNotebook, hl, hc, withTrace] using h
      obtain ⟨ds, hds, hcalls⟩ := runFromCompute_ok_scheduleCalls p _ r h'
      refine ⟨ds, hds, ?_⟩
      have htr : (runNotebook p).1 =
          [SdkCall.computeLookup aml_compute_target,
           SdkCall.computeCreate aml_compute_target provisioning_config,
           SdkCall.waitForCompletion 20]
            ++ (runFromCompute p
              { name := aml_compute_target,
                config := provisioning_config }).1 := by
        simp [runNotebook, hl, hc, withTrace]
      rw [htr, scheduleCalls_append, hcalls]
      simp [scheduleCalls]
  · have h' : (runFromCompute p t).2 = .ok r := by
      simpa [runNotebook, hl, withTrace] using h
    obtain ⟨ds, hds, hcalls⟩ := runFromCompute_ok_scheduleCalls p t r h'
    refine ⟨ds, hds, ?_⟩
    have htr : (runNotebook p).1 =
        [SdkCall.computeLookup aml_compute_target]
          ++ (runFromCompute p t).1 := by
      simp [runNotebook, hl, withTrace]
    rw [htr, scheduleCalls_append, hcalls]
    simp [scheduleCalls]

/-- Witness for C9: the concrete happy-path run. -/
theorem c9_two_schedule_creates_witness :
    ∃ ds, happyPlatform.datastores DATASTORE_NAME = some ds ∧
      scheduleCalls (runNotebook happyPlatform).1 =
        [.scheduleCreate "My_Schedule" happyPlatform.publishedId
           (.recurrenceTrig recurrence),
         .scheduleCreate "My_Schedule" happyPlatform.publishedId
           (.datastoreTrig ds)] :=
  c9_two_schedule_creates happyPlatform
    { aml_compute := cpuCluster
      published_id := "pipeline-id-0"
      schedule1 := recurrenceSchedule "pipeline-id-0"
      schedule2 := datastoreSchedule "pipeline-id-0" "workspaceblobstore" }
    rfl

theorem runFromSteps_no_lookup_calls (p : Platform) (aml : AmlComputeT)
    (d : DatasetV) (ds : String) (n : String) :
    SdkCall.datasetGetByName n ∉ (runFromSteps p aml d ds).1 ∧
    SdkCall.datastoreGet n ∉ (runFromSteps p aml d ds).1 := by
  rcases hv : validate [data_prep_step aml d ds, train_step aml ds]
      [DATASET_NAME] (fun n => (p.datasets n).isSome) with e | u
  · simp [runFromSteps, hv]
  · rcases hs : p.submitOk <;> rcases hp : p.publishOk <;>
      rcases hsc : p.scheduleOk <;>
      simp [runFromSteps, hv, hs, hp, hsc]

theorem runFromCompute_lookup_names (p : Platform) (aml : AmlComputeT)
    (n : String) :
    (SdkCall.datasetGetByName n ∈ (runFromCompute p aml).1 →
      n = DATASET_NAME) ∧
    (SdkCall.datastoreGet n ∈ (runFromCompute p aml).1 →
      n = DATASTORE_NAME) := by
  rcases hd : p.datasets DATASET_NAME with _ | d
  · simp [runFromCompute, hd]
  · rcases hds : p.datastores DATASTORE_NAME with _ | ds
    · simp [runFromCompute, hd, hds]
    · have hno := runFromSteps_no_lookup_calls p aml d ds n
      simp [runFromCompute, hd, hds, withTrace, hno.1, hno.2]

/-- Claim C10: in the unmodified source `DATASET_NAME` and
`DATASTORE_NAME` are both the empty string, and on every execution path
the dataset lookup and the datastore resolution are only ever invoked
with the empty string as the resource name. -/
theorem c10_lookups_use_empty_names :
    DATASET_NAME = "" ∧ DATASTORE_NAME = "" ∧
    (∀ (p : Platform) n,
      SdkCall.datasetGetByName n ∈ (runNotebook p).1 → n = "") ∧
    (∀ (p : Platform) n,
      SdkCall.datastoreGet n ∈ (runNotebook p).1 → n = "") := by
  refine ⟨rfl, rfl, ?_, ?_⟩
  · intro p n hm
    rcases hl : amlComputeLookup p.computes aml_compute_target with e | t
    · rcases hc : p.provisionCompletes
      · simp [runNotebook, hl, hc] at hm
      · have hn := (runFromCompute_lookup_names p
          { name := aml_compute_target, config := provisioning_config } n).1
        simp [runNotebook, hl, hc, withTrace] at hm
        exact hn hm
    · have hn := (runFromCompute_lookup_names p t n).1
      simp [runNotebook, hl, withTrace] at hm
      exact hn hm
  · intro p n hm
    rcases hl : amlComputeLookup p.computes aml_compute_target with e | t
    · rcases hc : p.provisionCompletes
      · simp [runNotebook, hl, hc] at hm
      · have hn := (runFromCompute_lookup_names p
          { name := aml_compute_target, config := provisioning_config } n).2
        simp [runNotebook, hl, hc, withTrace] at hm
        exact hn hm
    · have hn := (runFromCompute_lookup_names p t n).2
      simp [runNotebook, hl, withTrace] at hm
      exact hn hm

/-- Witness for C10: the lookup calls of the happy-path run carry the
empty name. -/
theorem c10_lookups_use_empty_names_witness :
    (SdkCall.datasetGetByName "" ∈ (runNotebook happyPlatform).1 ∧
      ("" : String) = "") ∧
    (SdkCall.datastoreGet "" ∈ (runNotebook happyPlatform).1 ∧
      ("" : String) = "") :=
  ⟨⟨by decide,
    c10_lookups_use_empty_names.2.2.1 happyPlatform "" (by decide)⟩,
   ⟨by decide,
    c10_lookups_use_empty_names.2.2.2 happyPlatform "" (by decide)⟩⟩

end BuildPipeline
